import Mathlib

/-!
Verification of the data-acquisition-and-alignment layer of the
`streamlit-app.py` dashboard (repository `priori-incantatem`).

The embedding models:

* `fetch_worldbank_data` (source lines 12-25): building the request URL,
  dispatching one GET, and normalizing the JSON payload into a per-year
  table, including every failure path of the Python code (paths that
  raise are modelled as `Except.error`);
* the inner merges on `Year` performed by the Gender Gap tab (line 75)
  and the Trend Analysis tab (line 90), and the derived difference
  column `merged_df["Gender Gap"]` (line 76);
* the `st.cache_data(ttl=86400)` time-to-live cache (line 12), whose
  implementation lives in the streamlit library rather than in this
  repository, and which is therefore modelled from the specification.

Floating-point values are modelled as rationals: the only arithmetic the
code performs on them is one subtraction, exact at the magnitudes involved.
-/

namespace WB

/-- One per-year record of the provider payload.  The World Bank schema
carries a `date` key (a string) and a `value` key (number or null) in every
record.  `date = none` models a null/absent date (a NaN cell after
`pd.json_normalize`), `date = some none` models a date string that does not
parse as an integer (`astype(int)` raises on it), and `date = some (some y)`
a date string parsing to the year `y`.  `value = none` models JSON null. -/
structure RawRecord where
  date : Option (Option Int)
  value : Option ℚ
deriving DecidableEq

/-- The body of an HTTP response: either `response.json()` raises
(`unparseable`), or it yields a top-level array whose elements are record
lists (element 0 is the pagination metadata, ignored by the code; element 1
is the list of per-year records). -/
inductive Body where
  | unparseable
  | parsed (data : List (List RawRecord))
deriving DecidableEq

/-- The outcome of `requests.get`: either the request itself fails (network
error or timeout, which raises inside `requests.get`), or a response with a
status code and a body arrives. -/
inductive HttpResult where
  | networkError
  | response (status : Nat) (body : Body)
deriving DecidableEq

/-- The Python exceptions the fetch pipeline can propagate: a
`requests` connection/timeout error, a JSON decode error from
`response.json()`, a `KeyError` from `df[['date', 'value']]` when the
normalized frame lacks those columns (which happens exactly when the record
list is empty), and a `ValueError` from `astype(int)` on a date string that
is not an integer. -/
inductive PyError where
  | requestsError
  | jsonDecodeError
  | keyError
  | valueError
deriving DecidableEq

/-- A pandas DataFrame as the fetch layer uses it: named columns plus rows
of (year, value).  A successful fetch returns columns `["Year", indicator]`;
the bare `pd.DataFrame()` of the failure return has no columns. -/
structure Series where
  columns : List String
  rows : List (Int × ℚ)
deriving DecidableEq

/-- The `pd.DataFrame()` returned on the handled failure paths (line 25). -/
def emptyFrame : Series := ⟨[], []⟩

/-- The year/value pair a record contributes after `dropna` and
`astype(int)`: present exactly when the date is non-null and parses as an
integer and the value is non-null. -/
def parsedPoint (r : RawRecord) : Option (Int × ℚ) :=
  match r.date, r.value with
  | some (some y), some v => some (y, v)
  | _, _ => none

/-- Insert one row into a list sorted ascending by year (helper of
`sort_values`). -/
def insertByYear (p : Int × ℚ) : List (Int × ℚ) → List (Int × ℚ)
  | [] => [p]
  | q :: t => if p.1 ≤ q.1 then p :: q :: t else q :: insertByYear p t

/-- `df.sort_values('Year')` (line 24): sort the rows ascending by year.
The model uses an insertion sort; the relative order of rows sharing a year
is not observed by any claim (pandas' default quicksort leaves it
unspecified). -/
def sort_values : List (Int × ℚ) → List (Int × ℚ)
  | [] => []
  | p :: t => insertByYear p (sort_values t)

/-- Lines 19-24 of the source: `pd.json_normalize(data[1])`, column
selection `df[['date', 'value']]` (a `KeyError` when the record list is
empty, since the normalized frame then has no columns), the rename to
`['Year', indicator]`, `dropna` (which removes every row with a null in
either column), `astype(int)` on the remaining date strings (a `ValueError`
if any does not parse), and `sort_values('Year')`. -/
def processRecords (indicator : String) (records : List RawRecord) : Except PyError Series :=
  if records.isEmpty then
    .error .keyError
  else
    let kept := records.filter (fun r => r.date.isSome && r.value.isSome)
    if kept.all (fun r => (r.date.getD none).isSome) then
      .ok ⟨["Year", indicator], sort_values (kept.filterMap parsedPoint)⟩
    else
      .error .valueError

/-- The URL built on line 14 of the source: the scheme is `http`, the
country segment is the hard-coded `IN`, and only the indicator is
interpolated. -/
def worldbank_url (indicator : String) : String :=
  "http://api.worldbank.org/v2/country/IN/indicator/" ++ indicator ++ "?format=json&per_page=100"

/-- The URL as the specification words it (section 6): written from the
spec, not from the source, for comparison with `worldbank_url`. -/
def spec_url (country indicator : String) : String :=
  "https://api.worldbank.org/v2/country/" ++ country ++ "/indicator/" ++ indicator
    ++ "?format=json&per_page=100"

/-- `fetch_worldbank_data` (lines 13-25) applied to the outcome of its
single `requests.get` call: a network failure propagates out of
`requests.get` (there is no try/except in the function); on a response, the
body is only consulted when `status_code == 200`; a body that fails to
parse propagates the JSON decode error; a parsed array is processed only
when it has more than one element, else the bare empty frame is returned;
a non-200 status also returns the bare empty frame. -/
def fetch_worldbank_data (indicator : String) (resp : HttpResult) : Except PyError Series :=
  match resp with
  | .networkError => .error .requestsError
  | .response status body =>
    if status = 200 then
      match body with
      | .unparseable => .error .jsonDecodeError
      | .parsed data =>
        if h : 1 < data.length then
          processRecords indicator (data.get ⟨1, h⟩)
        else
          .ok emptyFrame
    else
      .ok emptyFrame

/-- One call of the fetch function against a transport: it builds the URL
once and issues exactly one GET to it; the second component is the list of
URLs requested during the call. -/
def fetchWithTransport (transport : String → HttpResult) (indicator : String) :
    Except PyError Series × List String :=
  let url := worldbank_url indicator
  (fetch_worldbank_data indicator (transport url), [url])

/-- The `Year` column of a row list. -/
def rowYears (rows : List (Int × ℚ)) : List Int := rows.map Prod.fst

/-- `pd.merge(left, right, on="Year", how="inner")` as used on lines 75 and
90: for each left row in order, one output row per right row carrying the
same year, in the right frame's order (pandas' inner merge preserves the
order of the left keys and does not sort). -/
def mergeInnerOnYear (left right : List (Int × ℚ)) : List (Int × ℚ × ℚ) :=
  left.flatMap (fun p => (right.filter (fun q => q.1 == p.1)).map (fun q => (p.1, p.2, q.2)))

/-- The `Year` column of a merged table. -/
def mergedYears (t : List (Int × ℚ × ℚ)) : List Int := t.map Prod.fst

/-- Line 76: `merged_df["Gender Gap"] = merged_df[A] - merged_df[B]` — the
derived per-row difference column appended after the join. -/
def addDiffColumn (t : List (Int × ℚ × ℚ)) : List (Int × ℚ × ℚ × ℚ) :=
  t.map (fun r => (r.1, r.2.1, r.2.2, r.2.1 - r.2.2))

/-- Modelled from the spec: the time-to-live of the `st.cache_data` cache,
"a time-to-live of 24 hours (86400 seconds)". -/
def TTL : Nat := 86400

/-- Modelled from the spec: one entry of the process-wide cache, "a mapping
from (country, indicatorCode) to (Series, fetchTimestamp)".  The country is
fixed (`IN`), so the key reduces to the indicator code; the timestamp is in
seconds. -/
structure CacheEntry where
  key : String
  series : Series
  fetchedAt : Nat
deriving DecidableEq

/-- Modelled from the spec: the cache consultation of `st.cache_data` —
an entry for the key answers the call only while younger than `TTL`. -/
def cache_lookup (cache : List CacheEntry) (key : String) (now : Nat) : Option Series :=
  match cache.find? (fun e => e.key == key) with
  | some e => if now - e.fetchedAt < TTL then some e.series else none
  | none => none

/-- Modelled from the spec: `fetch_worldbank_data` under its
`st.cache_data(ttl=86400)` decorator (the decorator's implementation is
streamlit library code, not part of this repository): the cache is
"consulted before any network call" and "populated lazily on first request
per key".  Returns the result, the new cache, and the number of network
calls the invocation performed. -/
def cachedFetch (transport : String → HttpResult) (indicator : String) (now : Nat)
    (cache : List CacheEntry) :
    Except PyError Series × List CacheEntry × Nat :=
  match cache_lookup cache indicator now with
  | some s => (.ok s, cache, 0)
  | none =>
    match fetch_worldbank_data indicator (transport (worldbank_url indicator)) with
    | .ok s => (.ok s, ⟨indicator, s, now⟩ :: cache, 1)
    | .error e => (.error e, cache, 1)

theorem insertByYear_perm (p : Int × ℚ) (l : List (Int × ℚ)) :
    List.Perm (insertByYear p l) (p :: l) := by
  induction l with
  | nil => rfl
  | cons q t ih =>
    rw [insertByYear]
    split
    · exact .refl _
    · exact (List.Perm.cons q ih).trans (List.Perm.swap p q t)

theorem sort_values_perm (l : List (Int × ℚ)) : List.Perm (sort_values l) l := by
  induction l with
  | nil => rfl
  | cons p t ih => exact (insertByYear_perm p _).trans (ih.cons p)

theorem pairwise_insertByYear {p : Int × ℚ} {l : List (Int × ℚ)}
    (h : l.Pairwise (fun a b : Int × ℚ => a.1 ≤ b.1)) :
    (insertByYear p l).Pairwise (fun a b : Int × ℚ => a.1 ≤ b.1) := by
  induction l with
  | nil => simp [insertByYear]
  | cons q t ih =>
    rw [insertByYear]
    rcases List.pairwise_cons.mp h with ⟨hq, ht⟩
    split
    next hle =>
      refine List.pairwise_cons.mpr ⟨?_, h⟩
      intro b hb
      rcases List.mem_cons.mp hb with rfl | hb
      · exact hle
      · exact le_trans hle (hq _ hb)
    next hgt =>
      refine List.pairwise_cons.mpr ⟨?_, ih ht⟩
      intro b hb
      rcases List.mem_cons.mp ((insertByYear_perm p t).mem_iff.mp hb) with rfl | hbt
      · exact le_of_not_le hgt
      · exact hq _ hbt

theorem pairwise_sort_values (l : List (Int × ℚ)) :
    (sort_values l).Pairwise (fun a b : Int × ℚ => a.1 ≤ b.1) := by
  induction l with
  | nil => simp [sort_values]
  | cons p t ih => exact pairwise_insertByYear ih

theorem mergedYears_merge_cons (p : Int × ℚ) (t b : List (Int × ℚ)) :
    mergedYears (mergeInnerOnYear (p :: t) b) =
      List.replicate ((rowYears b).count p.1) p.1 ++ mergedYears (mergeInnerOnYear t b) := by
  simp only [mergeInnerOnYear, List.flatMap_cons, mergedYears, List.map_append, List.map_map]
  congr 1
  have h1 : (Prod.fst ∘ fun q : Int × ℚ => (p.1, p.2, q.2)) = fun _ => p.1 := rfl
  rw [h1, List.map_const', List.count, rowYears, List.countP_map]
  rw [List.countP_eq_length_filter]
  rfl

theorem mem_mergedYears (a b : List (Int × ℚ)) (y : Int) :
    y ∈ mergedYears (mergeInnerOnYear a b) ↔ y ∈ rowYears a ∧ y ∈ rowYears b := by
  induction a with
  | nil => simp [mergeInnerOnYear, mergedYears, rowYears]
  | cons p t ih =>
    rw [mergedYears_merge_cons]
    simp only [List.mem_append, List.mem_replicate, ih, rowYears, List.map_cons, List.mem_cons]
    constructor
    · rintro (⟨hn, rfl⟩ | ⟨hy, hyb⟩)
      · exact ⟨Or.inl rfl, List.count_pos_iff.mp (Nat.pos_of_ne_zero hn)⟩
      · exact ⟨Or.inr hy, hyb⟩
    · rintro ⟨rfl | hy, hyb⟩
      · exact Or.inl ⟨Nat.pos_iff_ne_zero.mp (List.count_pos_iff.mpr hyb), rfl⟩
      · exact Or.inr ⟨hy, hyb⟩

theorem mergedYears_eq_filter (a b : List (Int × ℚ)) (hb : (rowYears b).Nodup) :
    mergedYears (mergeInnerOnYear a b) =
      (rowYears a).filter (fun y => decide (y ∈ rowYears b)) := by
  induction a with
  | nil => rfl
  | cons p t ih =>
    rw [mergedYears_merge_cons, ih]
    by_cases hmem : p.1 ∈ rowYears b
    · rw [List.count_eq_one_of_mem hb hmem]
      simp only [rowYears] at hmem
      simp [rowYears, List.filter_cons, hmem]
    · rw [List.count_eq_zero_of_not_mem hmem]
      simp only [rowYears] at hmem
      simp [rowYears, List.filter_cons, hmem]

theorem filterMap_parsedPoint_filter (records : List RawRecord) :
    (records.filter (fun r => r.date.isSome && r.value.isSome)).filterMap parsedPoint =
      records.filterMap parsedPoint := by
  induction records with
  | nil => rfl
  | cons r t ih =>
    rw [List.filter_cons]
    by_cases h : (r.date.isSome && r.value.isSome) = true
    · simp [h, List.filterMap_cons, ih]
    · have hp : parsedPoint r = none := by
        rcases r with ⟨d, v⟩
        rcases d with _ | d
        · rcases v with _ | v <;> rfl
        · rcases v with _ | v
          · rcases d with _ | y <;> rfl
          · exact absurd rfl h
      simp [h, List.filterMap_cons, hp, ih]

theorem fetch_ok_rows (ind : String) (meta records : List RawRecord) (s : Series)
    (h : fetch_worldbank_data ind (HttpResult.response 200 (Body.parsed [meta, records])) =
      Except.ok s) :
    s.columns = ["Year", ind] ∧ s.rows = sort_values (records.filterMap parsedPoint) := by
  have h2 : processRecords ind records = Except.ok s := by
    simpa [fetch_worldbank_data] using h
  rw [processRecords] at h2
  by_cases hr : records.isEmpty
  · rw [if_pos hr] at h2
    cases h2
  · rw [if_neg hr] at h2
    by_cases hall : ((records.filter (fun r => r.date.isSome && r.value.isSome)).all
        (fun r => (r.date.getD none).isSome)) = true
    · rw [if_pos hall] at h2
      have hs := (Except.ok.injEq _ _).mp h2.symm
      rw [hs]
      exact ⟨rfl, by rw [filterMap_parsedPoint_filter]⟩
    · rw [if_neg hall] at h2
      cases h2


/-- C1 (counterexample): on a network error, `fetch_worldbank_data` propagates
the `requests` exception instead of returning an empty Series — refuting the
claim that fetch never raises on transient failure. -/
theorem fetch_network_error_propagates :
    fetch_worldbank_data "FX.OWN.TOTL.ZS" HttpResult.networkError =
      Except.error PyError.requestsError ∧
    (fetch_worldbank_data "FX.OWN.TOTL.ZS" HttpResult.networkError).toOption = none :=
  ⟨rfl, rfl⟩

/-- C1 (amended): a non-200 status and a parsed top-level array with fewer
than two elements are collapsed to the empty frame, but a network error
(or timeout) and a JSON parse failure propagate as exceptions — the
function has no try/except. -/
theorem fetch_failure_collapse :
    (∀ (ind : String) (status : Nat) (body : Body), status ≠ 200 →
      fetch_worldbank_data ind (HttpResult.response status body) = Except.ok emptyFrame) ∧
    (∀ (ind : String) (data : List (List RawRecord)), data.length ≤ 1 →
      fetch_worldbank_data ind (HttpResult.response 200 (Body.parsed data)) =
        Except.ok emptyFrame) ∧
    (∀ ind : String,
      fetch_worldbank_data ind HttpResult.networkError = Except.error PyError.requestsError) ∧
    (∀ ind : String,
      fetch_worldbank_data ind (HttpResult.response 200 Body.unparseable) =
        Except.error PyError.jsonDecodeError) := by
  refine ⟨?_, ?_, fun ind => rfl, fun ind => rfl⟩
  · intro ind status body h
    simp only [fetch_worldbank_data]
    rw [if_neg h]
  · intro ind data h
    have hlen : ¬ 1 < data.length := by omega
    simp [fetch_worldbank_data, hlen]

/-- C1 (witness): the amended theorem applied to a 503 response and to a
one-element payload. -/
theorem fetch_failure_collapse_check :
    fetch_worldbank_data "FS.AST.PRVT.GD.ZS" (HttpResult.response 503 Body.unparseable) =
      Except.ok emptyFrame ∧
    fetch_worldbank_data "FS.AST.PRVT.GD.ZS" (HttpResult.response 200 (Body.parsed [[]])) =
      Except.ok emptyFrame :=
  ⟨fetch_failure_collapse.1 "FS.AST.PRVT.GD.ZS" 503 Body.unparseable (by decide),
   fetch_failure_collapse.2.1 "FS.AST.PRVT.GD.ZS" [[]] (by decide)⟩

/-- C2: the inner merge on Year with an empty series on either side is
empty (and the model is a total function: no error outcome exists). -/
theorem merge_empty_input (rows : List (Int × ℚ)) :
    mergeInnerOnYear [] rows = [] ∧ mergeInnerOnYear rows [] = [] := by
  constructor
  · rfl
  · simp [mergeInnerOnYear]

/-- C3 (counterexample): the URL the code requests is not the https URL the
claim names — the scheme is plain http (and the country segment is the
hard-coded `IN`). -/
theorem request_url_not_spec_url :
    worldbank_url "FX.OWN.TOTL.ZS" ≠ spec_url "IN" "FX.OWN.TOTL.ZS" := by
  decide

/-- C3 (amended): every fetch call issues exactly one GET, to
`http://api.worldbank.org/v2/country/IN/indicator/` followed by the
indicator code and `?format=json&per_page=100` — http scheme, country fixed
to IN, only the indicator interpolated. -/
theorem request_url_exact (transport : String → HttpResult) (ind : String) :
    (fetchWithTransport transport ind).2 = [worldbank_url ind] ∧
    worldbank_url ind =
      "http://api.worldbank.org/v2/country/IN/indicator/" ++ ind ++ "?format=json&per_page=100" :=
  ⟨rfl, rfl⟩

/-- C10 (counterexample): on a JSON parse failure — a failure path — fetch
raises the decode error rather than returning a zero-column table. -/
theorem fetch_parse_failure_no_table :
    fetch_worldbank_data "FS.AST.PRVT.GD.ZS" (HttpResult.response 200 Body.unparseable) =
      Except.error PyError.jsonDecodeError ∧
    (fetch_worldbank_data "FS.AST.PRVT.GD.ZS" (HttpResult.response 200 Body.unparseable)).toOption
      = none :=
  ⟨rfl, rfl⟩

/-- C10 (amended): whenever the success path returns a table from a parsed
payload with at least two elements, its columns are exactly
`["Year", indicator]`; on a non-200 status or a short payload fetch returns
the zero-column empty frame; an empty record list raises a `KeyError`
instead of returning a table. -/
theorem fetch_result_shape :
    (∀ (ind : String) (data : List (List RawRecord)) (s : Series),
      fetch_worldbank_data ind (HttpResult.response 200 (Body.parsed data)) = Except.ok s →
      1 < data.length →
      s.columns = ["Year", ind]) ∧
    (∀ (ind : String) (status : Nat) (body : Body), status ≠ 200 →
      fetch_worldbank_data ind (HttpResult.response status body) = Except.ok emptyFrame) ∧
    emptyFrame.columns = [] ∧
    (∀ (ind : String) (meta : List RawRecord),
      fetch_worldbank_data ind (HttpResult.response 200 (Body.parsed [meta, []])) =
        Except.error PyError.keyError) := by
  refine ⟨?_, ?_, rfl, fun ind meta => rfl⟩
  · intro ind data s h hlen
    simp only [fetch_worldbank_data, hlen, if_pos rfl, dif_pos] at h
    rw [processRecords] at h
    by_cases hr : (data.get ⟨1, hlen⟩).isEmpty
    · rw [if_pos hr] at h
      cases h
    · rw [if_neg hr] at h
      by_cases hall : (((data.get ⟨1, hlen⟩).filter
          (fun r => r.date.isSome && r.value.isSome)).all
          (fun r => (r.date.getD none).isSome)) = true
      · rw [if_pos hall] at h
        have hs := (Except.ok.injEq _ _).mp h.symm
        rw [hs]
      · rw [if_neg hall] at h
        cases h
  · intro ind status body h
    simp only [fetch_worldbank_data]
    rw [if_neg h]

/-- C10 (witness): the shape theorem applied to a concrete success payload
and to a concrete 404 response. -/
theorem fetch_result_shape_check :
    (Series.mk ["Year", "FX.OWN.TOTL.ZS"] [((2020 : Int), (1 : ℚ))]).columns =
      ["Year", "FX.OWN.TOTL.ZS"] ∧
    fetch_worldbank_data "FX.OWN.TOTL.ZS" (HttpResult.response 404 Body.unparseable) =
      Except.ok emptyFrame :=
  ⟨fetch_result_shape.1 "FX.OWN.TOTL.ZS"
      [[], [⟨some (some 2020), some 1⟩]]
      ⟨["Year", "FX.OWN.TOTL.ZS"], [(2020, 1)]⟩ rfl (by decide),
   fetch_result_shape.2.1 "FX.OWN.TOTL.ZS" 404 Body.unparseable (by decide)⟩


/-- C4 (counterexample): a payload repeating a date yields a Series whose
Year column is [2020, 2020] — not strictly ascending and not unique. -/
theorem fetch_years_duplicate :
    (fetch_worldbank_data "FX.OWN.TOTL.ZS" (HttpResult.response 200 (Body.parsed
      [[], [⟨some (some 2020), some 1⟩, ⟨some (some 2020), some 2⟩]]))).toOption.map
        (fun s => rowYears s.rows) = some [2020, 2020] ∧
    ¬ List.Sorted (· < ·) ([2020, 2020] : List Int) :=
  ⟨rfl, by decide⟩

/-- C4 (amended): the Year column of every successfully fetched Series is
sorted non-decreasingly; it is strictly ascending and unique whenever the
payload's records carry pairwise-distinct parsed dates. -/
theorem fetch_years_sorted (ind : String) (meta records : List RawRecord) (s : Series)
    (h : fetch_worldbank_data ind (HttpResult.response 200 (Body.parsed [meta, records])) =
      Except.ok s) :
    List.Sorted (· ≤ ·) (rowYears s.rows) ∧
    (((records.filterMap parsedPoint).map Prod.fst).Nodup →
      List.Sorted (· < ·) (rowYears s.rows)) := by
  obtain ⟨-, hrows⟩ := fetch_ok_rows ind meta records s h
  have hpair := pairwise_sort_values (records.filterMap parsedPoint)
  have hsorted : List.Sorted (· ≤ ·) (rowYears s.rows) := by
    rw [hrows, rowYears]
    exact List.Pairwise.map Prod.fst (fun a b hab => hab) hpair
  refine ⟨hsorted, fun hnd => ?_⟩
  have hperm : List.Perm (rowYears s.rows) ((records.filterMap parsedPoint).map Prod.fst) := by
    rw [hrows, rowYears]
    exact (sort_values_perm _).map Prod.fst
  exact hsorted.lt_of_le (hperm.nodup_iff.mpr hnd)

/-- C4 (witness): the amended theorem at a concrete two-record payload with
distinct dates. -/
theorem fetch_years_sorted_check :
    List.Sorted (· < ·) (rowYears [((2019 : Int), (7 : ℚ)), ((2021 : Int), (3 : ℚ))]) :=
  (fetch_years_sorted "FX.OWN.TOTL.ZS" []
      [⟨some (some 2021), some 3⟩, ⟨some (some 2019), some 7⟩]
      ⟨["Year", "FX.OWN.TOTL.ZS"], [(2019, 7), (2021, 3)]⟩ rfl).2 (by decide)

/-- C5: the merged table carries a row for a year exactly when the year
occurs in both input series, and the partial-overlap scenario
{2015,2016,2017} vs {2016,2017,2018} yields rows for 2016 and 2017 only. -/
theorem inner_join_year_membership :
    (∀ (a b : List (Int × ℚ)) (y : Int),
      y ∈ mergedYears (mergeInnerOnYear a b) ↔ y ∈ rowYears a ∧ y ∈ rowYears b) ∧
    mergedYears (mergeInnerOnYear [((2015 : Int), (1 : ℚ)), (2016, 2), (2017, 3)]
      [((2016 : Int), (4 : ℚ)), (2017, 5), (2018, 6)]) = [2016, 2017] :=
  ⟨mem_mergedYears, by decide⟩

/-- C6 (counterexample): a record with a null date and the non-null value 5
is dropped by `dropna` — refuting "all records with a non-null value are
kept". -/
theorem nonnull_value_dropped :
    fetch_worldbank_data "FX.OWN.TOTL.FE.ZS" (HttpResult.response 200 (Body.parsed
      [[], [⟨none, some 5⟩]])) =
      Except.ok ⟨["Year", "FX.OWN.TOTL.FE.ZS"], []⟩ := rfl

/-- C6 (amended): the rows of a successfully fetched Series are exactly (a
permutation of) the records carrying a non-null parseable date and a
non-null value, null-valued records being dropped; the null-dropping
scenario (2020 null, 2021 = 12.5) yields only the 2021 point. -/
theorem fetch_null_value_dropping :
    (∀ (ind : String) (meta records : List RawRecord) (s : Series),
      fetch_worldbank_data ind (HttpResult.response 200 (Body.parsed [meta, records])) =
        Except.ok s →
      List.Perm s.rows (records.filterMap parsedPoint)) ∧
    fetch_worldbank_data "FX.OWN.TOTL.ZS" (HttpResult.response 200 (Body.parsed
      [[], [⟨some (some 2020), none⟩, ⟨some (some 2021), some (25/2)⟩]])) =
      Except.ok ⟨["Year", "FX.OWN.TOTL.ZS"], [(2021, 25/2)]⟩ := by
  constructor
  · intro ind meta records s h
    rw [(fetch_ok_rows ind meta records s h).2]
    exact sort_values_perm _
  · rfl

/-- C6 (witness): the characterization applied to the scenario payload. -/
theorem fetch_null_value_dropping_check :
    List.Perm ([((2021 : Int), (25/2 : ℚ))])
      (([⟨some (some 2020), none⟩, ⟨some (some 2021), some (25/2 : ℚ)⟩] :
        List RawRecord).filterMap parsedPoint) :=
  fetch_null_value_dropping.1 "FX.OWN.TOTL.ZS" []
    [⟨some (some 2020), none⟩, ⟨some (some 2021), some (25/2 : ℚ)⟩]
    ⟨["Year", "FX.OWN.TOTL.ZS"], [(2021, 25/2)]⟩ rfl

/-- C7 (counterexample): with an unsorted left input the merge output
follows the left order — years [2019, 2018] — which is not ascending. -/
theorem merge_unsorted_input :
    mergeInnerOnYear [((2019 : Int), (1 : ℚ)), (2018, 2)] [((2018 : Int), (3 : ℚ)), (2019, 4)] =
      [(2019, 1, 4), (2018, 2, 3)] ∧
    ¬ List.Sorted (· ≤ ·)
      (mergedYears (mergeInnerOnYear [((2019 : Int), (1 : ℚ)), (2018, 2)]
        [((2018 : Int), (3 : ℚ)), (2019, 4)])) :=
  ⟨rfl, by decide⟩

/-- C7 (amended): for inputs whose Year columns are strictly ascending (as
fetch produces them), the merged Year column is strictly ascending, and it
is the same for `merge a b` and `merge b a`; for arbitrarily ordered inputs
the output instead follows the left input's row order. -/
theorem merge_sorted_inputs (a b : List (Int × ℚ))
    (ha : List.Sorted (· < ·) (rowYears a)) (hb : List.Sorted (· < ·) (rowYears b)) :
    List.Sorted (· < ·) (mergedYears (mergeInnerOnYear a b)) ∧
    mergedYears (mergeInnerOnYear a b) = mergedYears (mergeInnerOnYear b a) := by
  have hna : (rowYears a).Nodup := ha.nodup
  have hnb : (rowYears b).Nodup := hb.nodup
  have e1 := mergedYears_eq_filter a b hnb
  have e2 := mergedYears_eq_filter b a hna
  have s1 : List.Sorted (· < ·) (mergedYears (mergeInnerOnYear a b)) := by
    rw [e1]
    exact ha.filter _
  refine ⟨s1, ?_⟩
  have s2 : List.Sorted (· < ·) (mergedYears (mergeInnerOnYear b a)) := by
    rw [e2]
    exact hb.filter _
  have hperm : List.Perm (mergedYears (mergeInnerOnYear a b))
      (mergedYears (mergeInnerOnYear b a)) := by
    refine (List.perm_ext_iff_of_nodup ?_ ?_).mpr ?_
    · rw [e1]
      exact hna.filter _
    · rw [e2]
      exact hnb.filter _
    · intro z
      rw [mem_mergedYears, mem_mergedYears]
      exact and_comm
  exact List.eq_of_perm_of_sorted hperm
    (s1.imp (fun h => le_of_lt h)) (s2.imp (fun h => le_of_lt h))

/-- C7 (witness): the amended theorem at concrete sorted inputs. -/
theorem merge_sorted_inputs_check :
    List.Sorted (· < ·)
      (mergedYears (mergeInnerOnYear [((2016 : Int), (1 : ℚ)), (2017, 2)]
        [((2016 : Int), (3 : ℚ)), (2018, 4)])) ∧
    mergedYears (mergeInnerOnYear [((2016 : Int), (1 : ℚ)), (2017, 2)]
        [((2016 : Int), (3 : ℚ)), (2018, 4)]) =
      mergedYears (mergeInnerOnYear [((2016 : Int), (3 : ℚ)), (2018, 4)]
        [((2016 : Int), (1 : ℚ)), (2017, 2)]) :=
  merge_sorted_inputs _ _ (by decide) (by decide)

/-- C8: every row of the appended difference column equals valueA − valueB,
and the scenario seriesA = [(2018,50),(2019,55)], seriesB =
[(2018,20),(2019,25)] yields [(2018,50,20,30),(2019,55,25,30)]. -/
theorem gender_gap_difference :
    (∀ t : List (Int × ℚ × ℚ),
      (addDiffColumn t).Forall (fun r => r.2.2.2 = r.2.1 - r.2.2.1)) ∧
    addDiffColumn (mergeInnerOnYear [((2018 : Int), (50 : ℚ)), (2019, 55)]
      [((2018 : Int), (20 : ℚ)), (2019, 25)]) =
      [(2018, 50, 20, 30), (2019, 55, 25, 30)] := by
  constructor
  · intro t
    induction t with
    | nil => trivial
    | cons r t ih =>
      simp only [addDiffColumn, List.map_cons, List.forall_cons]
      exact ⟨by trivial, ih⟩
  · norm_num [addDiffColumn, mergeInnerOnYear, List.flatMap_cons, List.flatMap_nil,
      List.filter_cons, List.filter_nil]

/-- C9: on a fresh key the first call fetches once and caches the Series
with its timestamp; a second call within the 86400-second time-to-live
returns the identical Series, leaves the cache unchanged, and performs no
network call. -/
theorem cache_hit_within_ttl (transport : String → HttpResult) (ind : String)
    (t1 t2 : Nat) (cache : List CacheEntry) (s : Series)
    (hfresh : cache.find? (fun e => e.key == ind) = none)
    (hok : fetch_worldbank_data ind (transport (worldbank_url ind)) = Except.ok s)
    (hin : t2 - t1 < TTL) :
    cachedFetch transport ind t1 cache = (Except.ok s, ⟨ind, s, t1⟩ :: cache, 1) ∧
    cachedFetch transport ind t2 (⟨ind, s, t1⟩ :: cache) =
      (Except.ok s, ⟨ind, s, t1⟩ :: cache, 0) := by
  constructor
  · have hl : cache_lookup cache ind t1 = none := by
      rw [cache_lookup, hfresh]
    simp only [cachedFetch, hl, hok]
  · have hl2 : cache_lookup (⟨ind, s, t1⟩ :: cache) ind t2 = some s := by
      simp [cache_lookup, List.find?, hin]
    simp only [cachedFetch, hl2]

/-- C9 (witness): the cache theorem run on a canned transport, a fresh
cache, and the timestamps 0 and 3600. -/
theorem cache_hit_within_ttl_check :
    cachedFetch (fun _ => HttpResult.response 200 (Body.parsed [[], [⟨some (some 2020), some 1⟩]]))
      "FX.OWN.TOTL.ZS" 0 [] =
      (Except.ok ⟨["Year", "FX.OWN.TOTL.ZS"], [(2020, 1)]⟩,
        [⟨"FX.OWN.TOTL.ZS", ⟨["Year", "FX.OWN.TOTL.ZS"], [(2020, 1)]⟩, 0⟩], 1) ∧
    cachedFetch (fun _ => HttpResult.response 200 (Body.parsed [[], [⟨some (some 2020), some 1⟩]]))
      "FX.OWN.TOTL.ZS" 3600 [⟨"FX.OWN.TOTL.ZS", ⟨["Year", "FX.OWN.TOTL.ZS"], [(2020, 1)]⟩, 0⟩] =
      (Except.ok ⟨["Year", "FX.OWN.TOTL.ZS"], [(2020, 1)]⟩,
        [⟨"FX.OWN.TOTL.ZS", ⟨["Year", "FX.OWN.TOTL.ZS"], [(2020, 1)]⟩, 0⟩], 0) :=
  cache_hit_within_ttl _ "FX.OWN.TOTL.ZS" 0 3600 [] _ rfl rfl (by decide)

end WB
